import Mathlib

/-!
Shallow embedding of `src/notifier/views.py` (class `NotifyTelegramView`)
from the Telegram-Notification-System repository.

Python values appearing in the inbound JSON map are modelled by `JVal`;
Python exceptions relevant to this module by `PyExc`; the two outbound
Telegram sends and the admin-alert send are modelled by an environment
`TelegramEnv` that fixes the outcome of each outbound call, and the
nondeterministic `uuid.uuid4()` string by a `String` field of that
environment.  Side effects (messages actually sent, log lines) are
collected in a `List Effect`.
-/

namespace Notifier

/-- A JSON-ish Python value as it can occur in `request.data`. -/
inductive JVal : Type where
  | vStr (s : String)
  | vBool (b : Bool)
  | vInt (n : Int)
  | vNull
deriving DecidableEq, Repr

/-- Python `str(v)` for the values we model (used by f-string interpolation). -/
def jvalStr : JVal → String
  | .vStr s => s
  | .vBool true => "True"
  | .vBool false => "False"
  | .vInt n => toString n
  | .vNull => "None"

/-- Python truthiness (`if v:`) for the values we model. -/
def jvalTruthy : JVal → Bool
  | .vStr s => s ≠ ""
  | .vBool b => b
  | .vInt n => n ≠ 0
  | .vNull => false

/-- `isinstance(v, bool)` for the values we model. -/
def jvalIsBool : JVal → Bool
  | .vBool _ => true
  | _ => false

/-- `isinstance(v, str)` for the values we model. -/
def jvalIsStr : JVal → Bool
  | .vStr _ => true
  | _ => false

/-- The inbound `request.data` dict, modelled as an association list
(first binding of a key wins, as dict keys are unique). -/
def PyDict : Type := List (String × JVal)

/-- `k in data` (Python dict membership). -/
def hasKey (d : PyDict) (k : String) : Bool :=
  (List.any d (fun p => p.1 == k))

/-- Lookup of a key in the dict. -/
def lookup? (d : PyDict) (k : String) : Option JVal :=
  (List.find? (fun p => p.1 == k) d).map (fun p => p.2)

/-- Python `data.get(k, dflt)`. -/
def getD (d : PyDict) (k : String) (dflt : JVal) : JVal :=
  (lookup? d k).getD dflt

/-- The Python exception classes this module can raise or catch.
All four are subclasses of `Exception` (never of each other). -/
inductive PyExc : Type where
  | valueError (msg : String)
  | telegramError (msg : String)
  | attributeError (msg : String)
  | keyError (msg : String)
deriving DecidableEq, Repr

/-- Python `str(e)` on an exception (its message). -/
def excMsg : PyExc → String
  | .valueError m => m
  | .telegramError m => m
  | .attributeError m => m
  | .keyError m => m

/-- Python `data[k]`: the value, or a `KeyError` when the key is absent. -/
def getItem (d : PyDict) (k : String) : Except PyExc JVal :=
  match lookup? d k with
  | some v => Except.ok v
  | none => Except.error (PyExc.keyError k)

/-- Outcome of one outbound `bot.send_message(...)` call. -/
inductive SendOutcome : Type where
  | ok
  | telegramError (msg : String)
  | otherError (msg : String)
deriving DecidableEq, Repr

/-- `PyExc.otherError` stands for any `Exception` that is neither a
`ValueError` nor a `TelegramError`: it lands in the generic
`except Exception` clauses, exactly like `keyError`. -/
def PyExc.otherError (m : String) : PyExc := PyExc.keyError m

/-- Run one outbound send: succeed, or raise the corresponding exception. -/
def trySend : SendOutcome → Except PyExc Unit
  | .ok => Except.ok ()
  | .telegramError m => Except.error (PyExc.telegramError m)
  | .otherError m => Except.error (PyExc.otherError m)

/-- Environment fixing the outcome of each outbound call of a single
request, and the `uuid.uuid4()` string drawn for it. -/
structure TelegramEnv : Type where
  groupSend : SendOutcome
  adminConfirm : SendOutcome
  adminAlert : SendOutcome
  uuid : String
deriving DecidableEq, Repr

/-- Observable side effects of a request. -/
inductive Effect : Type where
  | sentGroup (text : String) (kb : List (List (String × String)))
  | sentAdmin (text : String)
  | logError (msg : String)
  | logWarning (msg : String)
deriving DecidableEq, Repr

/-- `generate_request_id` (views.py lines 95-98):
`str(uuid.uuid4())[:8].upper()`, with the uuid string as input.  The
slice and the per-character uppercasing are taken on the character list
(uuid strings are ASCII, where Python `str.upper` is per-character). -/
def generate_request_id (u : String) : String :=
  String.mk ((u.data.take 8).map Char.toUpper)

/-- The message body built in `send_telegram_message` (views.py lines 35-47). -/
def formatMessage (name phone fees_paid email course : JVal) (reqId : String) : String :=
  let m := "🎓 *New Registration Request*\n\n" ++
    "👤 *Name:* " ++ jvalStr name ++ "\n" ++
    "📞 *Phone:* " ++ jvalStr phone ++ "\n"
  let m := if jvalTruthy email then m ++ "📧 *Email:* " ++ jvalStr email ++ "\n" else m
  let m := if jvalTruthy course then m ++ "📚 *Course:* " ++ jvalStr course ++ "\n" else m
  let m := m ++ "💰 *Fees Paid:* " ++ (if jvalTruthy fees_paid then "✅ Yes" else "❌ No") ++ "\n\n"
  m ++ "🆔 *Request ID:* " ++ reqId

/-- The inline keyboard built in `send_telegram_message` (views.py lines
50-58): rows of `(label, callback_data)` buttons. -/
def keyboard (phone : String) : List (List (String × String)) :=
  [ [ ("✅ Approve", "approve_" ++ phone),
      ("❌ Reject", "reject_" ++ phone) ],
    [ ("ℹ️ More Info", "info_" ++ phone) ] ]

/-- The admin confirmation text (views.py lines 69-72). -/
def confirmText (name : JVal) : String :=
  "ℹ️ New registration request from " ++ jvalStr name ++ " received and forwarded to group."

/-- `notify_admin_error` (views.py lines 83-93): send the alert to the
admin chat, catching any `Exception` and logging it; never raises. -/
def notify_admin_error (alertOutcome : SendOutcome) (error_message : String) :
    List Effect × Except PyExc Unit :=
  match trySend alertOutcome with
  | Except.ok _ =>
      ([Effect.sentAdmin ("🚨 *System Error*\n\n" ++ error_message)], Except.ok ())
  | Except.error e =>
      ([Effect.logError ("Failed to notify admin: " ++ excMsg e)], Except.ok ())

/-- The two `except` blocks of `send_telegram_message` (views.py lines
74-81): log, alert the admin, and re-raise the original exception. -/
def sendExceptBlock (env : TelegramEnv) (e : PyExc) : List Effect × Except PyExc Unit :=
  match e with
  | PyExc.telegramError m =>
      (Effect.logError ("Telegram API error: " ++ m) ::
        (notify_admin_error env.adminAlert ("Failed to send message: " ++ m)).1,
       Except.error e)
  | _ =>
      (Effect.logError ("Unexpected error: " ++ excMsg e) ::
        (notify_admin_error env.adminAlert ("Unexpected error: " ++ excMsg e)).1,
       Except.error e)

/-- `send_telegram_message` (views.py lines 29-81): format the message,
send it to the group with the keyboard, then send the admin confirmation;
on failure run the matching `except` block. -/
def send_telegram_message (env : TelegramEnv) (name phone fees_paid email course : JVal) :
    List Effect × Except PyExc Unit :=
  let message := formatMessage name phone fees_paid email course (generate_request_id env.uuid)
  let kb := keyboard (jvalStr phone)
  match trySend env.groupSend with
  | Except.error e => sendExceptBlock env e
  | Except.ok _ =>
      match trySend env.adminConfirm with
      | Except.error e =>
          (Effect.sentGroup message kb :: (sendExceptBlock env e).1, (sendExceptBlock env e).2)
      | Except.ok _ =>
          ([Effect.sentGroup message kb, Effect.sentAdmin (confirmText name)], Except.ok ())

/-- Python `str.isdigit`, modelled on its ASCII domain: true exactly for
non-empty strings of ASCII digits.  Python's `isdigit` additionally
accepts non-ASCII Unicode digits (e.g. Arabic-Indic `٠`-`٩`), so this is
an under-approximation there; every theorem below therefore confines the
phone either to strings this predicate accepts (ASCII digit strings,
which Python also accepts) or to strings holding an ASCII non-digit
character (which Python also rejects) — domains on which this model and
Python agree exactly. -/
def pyIsdigit (s : String) : Bool :=
  !(List.isEmpty s.data) && List.all s.data Char.isDigit

/-- `validate_input` (views.py lines 100-113).  Raising is modelled by
`Except.error`; note that `data['phone'].isdigit()` on a non-string
raises an `AttributeError`, not a `ValueError`. -/
def validate_input (data : PyDict) : Except PyExc Unit :=
  let missing_fields := List.filter (fun f => !(hasKey data f)) ["name", "phone"]
  match missing_fields with
  | _ :: _ =>
      Except.error (PyExc.valueError
        ("Missing required fields: " ++ String.intercalate ", " missing_fields))
  | [] =>
      match getD data "fees_paid" (JVal.vBool false) with
      | JVal.vBool _ =>
          match getItem data "phone" with
          | Except.ok (JVal.vStr phone) =>
              if pyIsdigit phone && decide (phone.length ≥ 10) then Except.ok ()
              else Except.error (PyExc.valueError "Phone number must be at least 10 digits")
          | Except.ok _ =>
              Except.error (PyExc.attributeError "object has no attribute isdigit")
          | Except.error e => Except.error e
      | _ => Except.error (PyExc.valueError "fees_paid must be a boolean value")

/-- Substring test on character lists (used to observe whether a marker
such as the email label occurs in a formatted message). -/
def containsSub (pat : List Char) : List Char → Bool
  | [] => List.isEmpty pat
  | c :: rest => List.isPrefixOf pat (c :: rest) || containsSub pat rest

/-- An HTTP response body as returned by the view. -/
structure RespBody : Type where
  status : String
  message : String
  echoName : Option JVal := none
  echoPhone : Option JVal := none
  echoFees : Option JVal := none
deriving DecidableEq, Repr

/-- An HTTP response: status code plus JSON body. -/
structure HttpResponse : Type where
  statusCode : Nat
  body : RespBody
deriving DecidableEq, Repr

/-- The `try` block of `post` (views.py lines 127-149): validate, extract
the fields, send, and build the success response; any exception escapes
to the `except` clauses. -/
def tryPost (env : TelegramEnv) (data : PyDict) : List Effect × Except PyExc HttpResponse :=
  match validate_input data with
  | Except.error e => ([], Except.error e)
  | Except.ok _ =>
      match getItem data "name", getItem data "phone" with
      | Except.ok name, Except.ok phone =>
          let fees_paid := getD data "fees_paid" (JVal.vBool false)
          let email := getD data "email" JVal.vNull
          let course := getD data "course" JVal.vNull
          let r := send_telegram_message env name phone fees_paid email course
          match r.2 with
          | Except.ok _ =>
              (r.1, Except.ok
                { statusCode := 200,
                  body := { status := "success",
                            message := "Registration request sent successfully!",
                            echoName := some name, echoPhone := some phone,
                            echoFees := some fees_paid } })
          | Except.error e => (r.1, Except.error e)
      | Except.error e, _ => ([], Except.error e)
      | _, Except.error e => ([], Except.error e)

/-- `post` (views.py lines 115-170): run the `try` block, then map any
exception through the `except` clauses (`ValueError` → 400,
`TelegramError` → 502, anything else → 500). -/
def post (env : TelegramEnv) (data : PyDict) : List Effect × HttpResponse :=
  match tryPost env data with
  | (effs, Except.ok resp) => (effs, resp)
  | (effs, Except.error (PyExc.valueError m)) =>
      (effs ++ [Effect.logWarning ("Validation error: " ++ m)],
       { statusCode := 400, body := { status := "error", message := m } })
  | (effs, Except.error (PyExc.telegramError m)) =>
      (effs ++ [Effect.logError ("Telegram API error: " ++ m)],
       { statusCode := 502,
         body := { status := "error", message := "Failed to send notification to Telegram" } })
  | (effs, Except.error e) =>
      (effs ++ [Effect.logError ("Unexpected error: " ++ excMsg e)],
       { statusCode := 500,
         body := { status := "error", message := "An unexpected error occurred" } })

/-- The valid example payload from the spec:
`{name: "Alice", phone: "9876543210", fees_paid: true}`. -/
def dataAlice : PyDict :=
  [("name", JVal.vStr "Alice"), ("phone", JVal.vStr "9876543210"),
   ("fees_paid", JVal.vBool true)]

/-- An environment in which every outbound call succeeds. -/
def envOk : TelegramEnv :=
  { groupSend := SendOutcome.ok, adminConfirm := SendOutcome.ok,
    adminAlert := SendOutcome.ok, uuid := "abcd1234-ef56-7890-abcd-ef1234567890" }

/-- An environment in which the group send fails with a `TelegramError`. -/
def envTgFail : TelegramEnv :=
  { groupSend := SendOutcome.telegramError "boom", adminConfirm := SendOutcome.ok,
    adminAlert := SendOutcome.ok, uuid := "abcd1234-ef56-7890-abcd-ef1234567890" }

theorem hasKey_eq_isSome (d : PyDict) (k : String) :
    hasKey d k = (lookup? d k).isSome := by
  induction d with
  | nil => rfl
  | cons p rest ih =>
      by_cases h : p.1 == k
      · simp [hasKey, lookup?, List.any, List.find?, h]
      · simp [hasKey, lookup?, List.any, List.find?, h] at ih ⊢
        exact ih

theorem getD_of_lookup_some {d : PyDict} {k : String} {v : JVal} (dflt : JVal)
    (h : lookup? d k = some v) : getD d k dflt = v := by
  simp [getD, h]

theorem getD_of_lookup_none {d : PyDict} {k : String} (dflt : JVal)
    (h : lookup? d k = none) : getD d k dflt = dflt := by
  simp [getD, h]

theorem getItem_of_lookup_some {d : PyDict} {k : String} {v : JVal}
    (h : lookup? d k = some v) : getItem d k = Except.ok v := by
  simp [getItem, h]

/-- Each call of `notify_admin_error` produces exactly one effect. -/
theorem notify_admin_error_one_effect (o : SendOutcome) (m : String) :
    (notify_admin_error o m).1.length = 1 := by
  cases o <;> simp [notify_admin_error, trySend]

end Notifier

namespace Notifier

theorem validate_missing_msg (data : PyDict)
    (h : ¬ (hasKey data "name" = true ∧ hasKey data "phone" = true)) :
    validate_input data =
      Except.error (PyExc.valueError
        ("Missing required fields: " ++ String.intercalate ", "
          (List.filter (fun f => !(hasKey data f)) ["name", "phone"]))) := by
  cases hn : hasKey data "name" <;> cases hp : hasKey data "phone" <;>
    simp [validate_input, hn, hp]
  exact absurd ⟨hn, hp⟩ h

/-- C8: `notify_admin_error` never propagates a failure: whatever the
outcome of the admin-alert send (success, `TelegramError`, or any other
exception), the failure is caught — the function logs it and returns
normally (`Except.ok ()`), so it never changes the error surfaced to the
caller; on failure the only effect is the log line, never a raised
exception. -/
theorem claim_C8_notify_admin_error_never_raises (o : SendOutcome) (m : String) :
    (notify_admin_error o m).2 = Except.ok () ∧
    (∀ e : PyExc, trySend o = Except.error e →
      (notify_admin_error o m).1 = [Effect.logError ("Failed to notify admin: " ++ excMsg e)]) := by
  cases o <;> simp [notify_admin_error, trySend]

/-- C8 witness: at the concrete failing outcome `telegramError "down"`,
`notify_admin_error` returns normally and merely logs. -/
theorem claim_C8_witness :
    (notify_admin_error (SendOutcome.telegramError "down") "msg").2 = Except.ok () ∧
    (notify_admin_error (SendOutcome.telegramError "down") "msg").1 =
      [Effect.logError ("Failed to notify admin: " ++ excMsg (PyExc.telegramError "down"))] :=
  ⟨(claim_C8_notify_admin_error_never_raises (SendOutcome.telegramError "down") "msg").1,
   (claim_C8_notify_admin_error_never_raises (SendOutcome.telegramError "down") "msg").2
     (PyExc.telegramError "down") rfl⟩

/-- C6: the inline keyboard built for a phone value `p` has exactly two
rows: the first row holds the Approve button with callback payload
`approve_<p>` and the Reject button with `reject_<p>`, the second row a
single More Info button with `info_<p>`; this keyboard is exactly what a
successful send attaches to the group message, and for phone
`"9876543210"` the payloads are `approve_9876543210`, `reject_9876543210`
and `info_9876543210`. -/
theorem claim_C6_keyboard_layout (env : TelegramEnv) (name phone fees email course : JVal)
    (p : String) (hg : env.groupSend = SendOutcome.ok)
    (ha : env.adminConfirm = SendOutcome.ok) :
    (send_telegram_message env name phone fees email course).1 =
      [Effect.sentGroup
        (formatMessage name phone fees email course (generate_request_id env.uuid))
        (keyboard (jvalStr phone)),
       Effect.sentAdmin (confirmText name)] ∧
    (keyboard p).length = 2 ∧
    (keyboard p).getD 0 [] =
      [("✅ Approve", "approve_" ++ p), ("❌ Reject", "reject_" ++ p)] ∧
    (keyboard p).getD 1 [] = [("ℹ️ More Info", "info_" ++ p)] ∧
    ((keyboard "9876543210").getD 0 []).map Prod.snd =
      ["approve_9876543210", "reject_9876543210"] ∧
    ((keyboard "9876543210").getD 1 []).map Prod.snd = ["info_9876543210"] := by
  refine ⟨?_, by simp [keyboard], by simp [keyboard], by simp [keyboard],
    by simp [keyboard], by simp [keyboard]⟩
  simp [send_telegram_message, hg, ha, trySend]

/-- C6 witness: the successful send of the Alice request attaches exactly
the two-row keyboard with the three payloads for phone `"9876543210"`. -/
theorem claim_C6_witness :
    (send_telegram_message envOk (JVal.vStr "Alice") (JVal.vStr "9876543210")
        (JVal.vBool true) JVal.vNull JVal.vNull).1 =
      [Effect.sentGroup
        (formatMessage (JVal.vStr "Alice") (JVal.vStr "9876543210") (JVal.vBool true)
          JVal.vNull JVal.vNull (generate_request_id envOk.uuid))
        (keyboard "9876543210"),
       Effect.sentAdmin (confirmText (JVal.vStr "Alice"))] ∧
    ((keyboard "9876543210").getD 0 []).map Prod.snd =
      ["approve_9876543210", "reject_9876543210"] ∧
    ((keyboard "9876543210").getD 1 []).map Prod.snd = ["info_9876543210"] := by
  have h := claim_C6_keyboard_layout envOk (JVal.vStr "Alice") (JVal.vStr "9876543210")
    (JVal.vBool true) JVal.vNull JVal.vNull "9876543210" rfl rfl
  exact ⟨h.1, h.2.2.2.2.1, h.2.2.2.2.2⟩

/-- C3: when the `name` key or the `phone` key (or both) is absent, the
handler returns HTTP 400 with status `"error"` and the message
`Missing required fields: ` followed by exactly the missing fields
(a field appears in the list iff its key is absent, in the order
name-then-phone). -/
theorem claim_C3_missing_fields (env : TelegramEnv) (data : PyDict)
    (h : hasKey data "name" = false ∨ hasKey data "phone" = false) :
    (post env data).2 =
      { statusCode := 400,
        body := { status := "error",
                  message := "Missing required fields: " ++ String.intercalate ", "
                    (List.filter (fun f => !(hasKey data f)) ["name", "phone"]) } } ∧
    ("name" ∈ List.filter (fun f => !(hasKey data f)) ["name", "phone"] ↔
      hasKey data "name" = false) ∧
    ("phone" ∈ List.filter (fun f => !(hasKey data f)) ["name", "phone"] ↔
      hasKey data "phone" = false) := by
  have hv := validate_missing_msg data (by rcases h with h | h <;> simp [h])
  refine ⟨?_, ?_, ?_⟩
  · simp [post, tryPost, hv]
  · cases hn : hasKey data "name" <;> simp [hn]
  · cases hp : hasKey data "phone" <;> simp [hp]

/-- C3 witness: for the input `{phone: "98765"}` the handler answers 400
with the message naming exactly the missing field `name`. -/
theorem claim_C3_witness :
    (post envOk [("phone", JVal.vStr "98765")]).2 =
      { statusCode := 400,
        body := { status := "error", message := "Missing required fields: name" } } := by
  have h := claim_C3_missing_fields envOk [("phone", JVal.vStr "98765")] (Or.inl rfl)
  simpa using h.1

/-- C5: when `name` and `phone` keys are present but `fees_paid` is
present and not strictly a boolean (an integer, a string, or null), the
handler returns HTTP 400 with status `"error"` (message
`fees_paid must be a boolean value`). -/
theorem claim_C5_fees_paid_not_bool (env : TelegramEnv) (data : PyDict) (v : JVal)
    (hn : hasKey data "name" = true) (hp : hasKey data "phone" = true)
    (hf : lookup? data "fees_paid" = some v) (hb : jvalIsBool v = false) :
    (post env data).2 =
      { statusCode := 400,
        body := { status := "error", message := "fees_paid must be a boolean value" } } := by
  have hg : getD data "fees_paid" (JVal.vBool false) = v := getD_of_lookup_some _ hf
  have hv : validate_input data =
      Except.error (PyExc.valueError "fees_paid must be a boolean value") := by
    cases v <;> simp_all [validate_input, hn, hp, hg, jvalIsBool]
  simp [post, tryPost, hv]

/-- C5 witness: `{name: "A", phone: "9876543210", fees_paid: 1}` (the
integer 1, not a boolean) is rejected with HTTP 400. -/
theorem claim_C5_witness :
    (post envOk [("name", JVal.vStr "A"), ("phone", JVal.vStr "9876543210"),
        ("fees_paid", JVal.vInt 1)]).2 =
      { statusCode := 400,
        body := { status := "error", message := "fees_paid must be a boolean value" } } :=
  claim_C5_fees_paid_not_bool envOk _ (JVal.vInt 1) rfl rfl rfl rfl

/-- C4: when `name` and `phone` keys are present and `phone` is a string
that has fewer than 10 characters or contains an ASCII non-digit
character (a code point below 128 that is not one of `0`-`9`, which
Python's `isdigit` also rejects), the handler returns HTTP 400 with
status `"error"`. -/
theorem claim_C4_bad_phone (env : TelegramEnv) (data : PyDict) (p : String)
    (hn : hasKey data "name" = true) (hp : lookup? data "phone" = some (JVal.vStr p))
    (hbad : p.length < 10 ∨ ∃ c ∈ p.data, c.toNat < 128 ∧ c.isDigit = false) :
    (post env data).2.statusCode = 400 ∧ (post env data).2.body.status = "error" := by
  have hpk : hasKey data "phone" = true := by
    rw [hasKey_eq_isSome, hp]; rfl
  have hcond : (pyIsdigit p && decide (p.length ≥ 10)) = false := by
    rcases hbad with h | ⟨c, hc, _, hcd⟩
    · simp [Nat.not_le_of_lt h]
    · have : pyIsdigit p = false := by
        simp [pyIsdigit]
        intro _
        exact ⟨c, hc, by simp [hcd]⟩
      simp [this]
  cases hfe : getD data "fees_paid" (JVal.vBool false) with
  | vBool b =>
      have hv : validate_input data =
          Except.error (PyExc.valueError "Phone number must be at least 10 digits") := by
        simp [validate_input, hn, hpk, hfe, getItem_of_lookup_some hp, hcond]
      simp [post, tryPost, hv]
  | vStr s =>
      have hv : validate_input data =
          Except.error (PyExc.valueError "fees_paid must be a boolean value") := by
        simp [validate_input, hn, hpk, hfe]
      simp [post, tryPost, hv]
  | vInt n =>
      have hv : validate_input data =
          Except.error (PyExc.valueError "fees_paid must be a boolean value") := by
        simp [validate_input, hn, hpk, hfe]
      simp [post, tryPost, hv]
  | vNull =>
      have hv : validate_input data =
          Except.error (PyExc.valueError "fees_paid must be a boolean value") := by
        simp [validate_input, hn, hpk, hfe]
      simp [post, tryPost, hv]

theorem validate_input_ok (data : PyDict) (p : String)
    (hn : hasKey data "name" = true)
    (hp : lookup? data "phone" = some (JVal.vStr p))
    (hd : pyIsdigit p = true) (hl : 10 ≤ p.length)
    (hf : jvalIsBool (getD data "fees_paid" (JVal.vBool false)) = true) :
    validate_input data = Except.ok () := by
  have hpk : hasKey data "phone" = true := by
    rw [hasKey_eq_isSome, hp]; rfl
  cases hfe : getD data "fees_paid" (JVal.vBool false) <;>
    rw [hfe] at hf <;> simp [jvalIsBool] at hf
  simp [validate_input, hn, hpk, hfe, getItem_of_lookup_some hp, hd, hl]

theorem keys_of_validate_ok (data : PyDict) (h : validate_input data = Except.ok ()) :
    ∃ nv, lookup? data "name" = some nv ∧
      ∃ p, lookup? data "phone" = some (JVal.vStr p) := by
  cases hn : hasKey data "name" <;> cases hp : hasKey data "phone" <;>
    simp [validate_input, hn, hp] at h
  obtain ⟨nv, hnv⟩ : ∃ nv, lookup? data "name" = some nv := by
    have : (lookup? data "name").isSome := by rw [← hasKey_eq_isSome]; exact hn
    exact Option.isSome_iff_exists.mp this
  refine ⟨nv, hnv, ?_⟩
  cases hfe : getD data "fees_paid" (JVal.vBool false) <;> rw [hfe] at h <;> simp at h
  cases hpl : lookup? data "phone" with
  | none =>
      rw [hasKey_eq_isSome, hpl] at hp
      simp at hp
  | some v =>
      cases v with
      | vStr s => exact ⟨s, rfl⟩
      | vBool b => rw [getItem_of_lookup_some hpl] at h; simp at h
      | vInt n => rw [getItem_of_lookup_some hpl] at h; simp at h
      | vNull => rw [getItem_of_lookup_some hpl] at h; simp at h

/-- C1: for every input that passes validation (`name` and `phone` keys
present, `phone` a digit string of length at least 10, `fees_paid`
absent or a boolean) and an environment where both outbound sends
succeed, `post` returns HTTP 200 with status `"success"`, a message
string, and data echoing the submitted `name` and `phone` and the
submitted `fees_paid` (or `false` when absent). -/
theorem claim_C1_success_roundtrip (env : TelegramEnv) (data : PyDict) (nv : JVal)
    (p : String)
    (hname : lookup? data "name" = some nv)
    (hphone : lookup? data "phone" = some (JVal.vStr p))
    (hd : pyIsdigit p = true) (hl : 10 ≤ p.length)
    (hf : lookup? data "fees_paid" = none ∨
      ∃ b, lookup? data "fees_paid" = some (JVal.vBool b))
    (hg : env.groupSend = SendOutcome.ok) (ha : env.adminConfirm = SendOutcome.ok) :
    (post env data).2 =
      { statusCode := 200,
        body := { status := "success",
                  message := "Registration request sent successfully!",
                  echoName := some nv, echoPhone := some (JVal.vStr p),
                  echoFees := some (getD data "fees_paid" (JVal.vBool false)) } } ∧
    (lookup? data "fees_paid" = none →
      getD data "fees_paid" (JVal.vBool false) = JVal.vBool false) ∧
    (∀ b, lookup? data "fees_paid" = some (JVal.vBool b) →
      getD data "fees_paid" (JVal.vBool false) = JVal.vBool b) := by
  have hn : hasKey data "name" = true := by
    rw [hasKey_eq_isSome, hname]; rfl
  have hfb : jvalIsBool (getD data "fees_paid" (JVal.vBool false)) = true := by
    rcases hf with h | ⟨b, h⟩
    · rw [getD_of_lookup_none _ h]; rfl
    · rw [getD_of_lookup_some _ h]; rfl
  have hv := validate_input_ok data p hn hphone hd hl hfb
  refine ⟨?_, fun h => getD_of_lookup_none _ h, fun b h => getD_of_lookup_some _ h⟩
  simp [post, tryPost, hv, getItem_of_lookup_some hname, getItem_of_lookup_some hphone,
    send_telegram_message, hg, ha, trySend]

/-- C1 witness: the spec's example input
`{name: "Alice", phone: "9876543210", fees_paid: true}` with all sends
succeeding yields HTTP 200 echoing the three fields. -/
theorem claim_C1_witness :
    (post envOk dataAlice).2 =
      { statusCode := 200,
        body := { status := "success",
                  message := "Registration request sent successfully!",
                  echoName := some (JVal.vStr "Alice"),
                  echoPhone := some (JVal.vStr "9876543210"),
                  echoFees := some (getD dataAlice "fees_paid" (JVal.vBool false)) } } :=
  (claim_C1_success_roundtrip envOk dataAlice (JVal.vStr "Alice") "9876543210"
    rfl rfl (by decide) (by decide) (Or.inr ⟨true, rfl⟩) rfl rfl).1

/-- C2: when the group send raises a `TelegramError`,
`send_telegram_message` logs the error, makes exactly one admin
error-alert attempt via `notify_admin_error`, and re-raises the original
error; `post` then answers HTTP 502 with the fixed body
`{status: "error", message: "Failed to send notification to Telegram"}`,
which contains no underlying error detail. -/
theorem claim_C2_telegram_error_502 (env : TelegramEnv) (m : String)
    (name phone fees email course : JVal) (data : PyDict)
    (hg : env.groupSend = SendOutcome.telegramError m) :
    (send_telegram_message env name phone fees email course).2 =
      Except.error (PyExc.telegramError m) ∧
    (send_telegram_message env name phone fees email course).1 =
      Effect.logError ("Telegram API error: " ++ m) ::
        (notify_admin_error env.adminAlert ("Failed to send message: " ++ m)).1 ∧
    (notify_admin_error env.adminAlert ("Failed to send message: " ++ m)).1.length = 1 ∧
    (validate_input data = Except.ok () →
      (post env data).2 =
        { statusCode := 502,
          body := { status := "error",
                    message := "Failed to send notification to Telegram" } }) := by
  refine ⟨?_, ?_, notify_admin_error_one_effect _ _, ?_⟩
  · simp [send_telegram_message, hg, trySend, sendExceptBlock]
  · simp [send_telegram_message, hg, trySend, sendExceptBlock]
  · intro hval
    obtain ⟨nv, hnv, p, hp2⟩ := keys_of_validate_ok data hval
    simp [post, tryPost, hval, getItem_of_lookup_some hnv, getItem_of_lookup_some hp2,
      send_telegram_message, hg, trySend, sendExceptBlock]

/-- C2 witness: at the concrete environment where the group send fails
with `TelegramError "boom"`, the Alice request yields a re-raised
`TelegramError` and an HTTP 502 with the fixed error body. -/
theorem claim_C2_witness :
    (send_telegram_message envTgFail (JVal.vStr "Alice") (JVal.vStr "9876543210")
        (JVal.vBool true) JVal.vNull JVal.vNull).2 =
      Except.error (PyExc.telegramError "boom") ∧
    (post envTgFail dataAlice).2 =
      { statusCode := 502,
        body := { status := "error",
                  message := "Failed to send notification to Telegram" } } := by
  have h := claim_C2_telegram_error_502 envTgFail "boom" (JVal.vStr "Alice")
    (JVal.vStr "9876543210") (JVal.vBool true) JVal.vNull JVal.vNull dataAlice rfl
  exact ⟨h.1, h.2.2.2 rfl⟩

/-- C4 witness: `{name: "A", phone: "98a6543210"}` (the ASCII letter `a`
in the phone) is rejected with HTTP 400 and status `"error"`. -/
theorem claim_C4_witness :
    (post envOk [("name", JVal.vStr "A"), ("phone", JVal.vStr "98a6543210")]).2.statusCode = 400 ∧
    (post envOk [("name", JVal.vStr "A"),
        ("phone", JVal.vStr "98a6543210")]).2.body.status = "error" :=
  claim_C4_bad_phone envOk _ "98a6543210" rfl rfl
    (Or.inr ⟨'a', by decide, by decide, by decide⟩)

/-- C7 counterexample: the input `{name: "", phone: "9876543210"}` has
the `name` key present with empty text, yet `validate_input` accepts it
(it checks only key presence) and the handler proceeds to send,
returning HTTP 200 when the sends succeed — refuting the claim that
validation fails on an empty name. -/
theorem claim_C7_counterexample :
    validate_input [("name", JVal.vStr ""), ("phone", JVal.vStr "9876543210")] =
      Except.ok () ∧
    (post envOk [("name", JVal.vStr ""), ("phone", JVal.vStr "9876543210")]).2.statusCode
      = 200 ∧
    (post envOk [("name", JVal.vStr ""), ("phone", JVal.vStr "9876543210")]).2.body.status
      = "success" :=
  ⟨rfl, rfl, rfl⟩

/-- C7 amended: an input whose `name` key is present with empty text
still passes validation — the validator checks only that the key exists,
never that the value is non-empty — so with a valid phone and valid
`fees_paid` the handler proceeds to send and returns HTTP 200 when both
sends succeed, rather than a client error. -/
theorem claim_C7_empty_name_accepted (env : TelegramEnv) (data : PyDict) (p : String)
    (hname : lookup? data "name" = some (JVal.vStr ""))
    (hphone : lookup? data "phone" = some (JVal.vStr p))
    (hd : pyIsdigit p = true) (hl : 10 ≤ p.length)
    (hf : lookup? data "fees_paid" = none ∨
      ∃ b, lookup? data "fees_paid" = some (JVal.vBool b))
    (hg : env.groupSend = SendOutcome.ok) (ha : env.adminConfirm = SendOutcome.ok) :
    validate_input data = Except.ok () ∧
    (post env data).2.statusCode = 200 ∧ (post env data).2.body.status = "success" := by
  have hn : hasKey data "name" = true := by
    rw [hasKey_eq_isSome, hname]; rfl
  have hfb : jvalIsBool (getD data "fees_paid" (JVal.vBool false)) = true := by
    rcases hf with h | ⟨b, h⟩
    · rw [getD_of_lookup_none _ h]; rfl
    · rw [getD_of_lookup_some _ h]; rfl
  have hv := validate_input_ok data p hn hphone hd hl hfb
  refine ⟨hv, ?_, ?_⟩ <;>
    simp [post, tryPost, hv, getItem_of_lookup_some hname, getItem_of_lookup_some hphone,
      send_telegram_message, hg, ha, trySend]

/-- C7 amended witness: the empty-name input passes validation and gets
HTTP 200 in the all-ok environment. -/
theorem claim_C7_amended_witness :
    validate_input [("name", JVal.vStr ""), ("phone", JVal.vStr "8876543210")] =
      Except.ok () ∧
    (post envOk [("name", JVal.vStr ""), ("phone", JVal.vStr "8876543210")]).2.statusCode
      = 200 :=
  have h := claim_C7_empty_name_accepted envOk
    [("name", JVal.vStr ""), ("phone", JVal.vStr "8876543210")] "8876543210"
    rfl rfl (by decide) (by decide) (Or.inl rfl) rfl rfl
  ⟨h.1, h.2.1⟩

/-- C10 counterexample: for `{name: "A", phone: 123, fees_paid: 1}` the
phone is a non-string, yet `validate_input` raises a `ValueError` (the
`fees_paid` check fires first) and the handler answers HTTP 400, not the
claimed HTTP 500. -/
theorem claim_C10_counterexample :
    validate_input [("name", JVal.vStr "A"), ("phone", JVal.vInt 123),
        ("fees_paid", JVal.vInt 1)] =
      Except.error (PyExc.valueError "fees_paid must be a boolean value") ∧
    (post envOk [("name", JVal.vStr "A"), ("phone", JVal.vInt 123),
        ("fees_paid", JVal.vInt 1)]).2.statusCode = 400 :=
  ⟨rfl, rfl⟩

/-- C10 amended: when `name` and `phone` keys are present, `phone` is
not a string, and `fees_paid` is absent or a boolean (so the earlier
`fees_paid` check passes), `validate_input` raises an `AttributeError`
(not a `ValueError`) from the `isdigit` attribute lookup, and the
handler answers HTTP 500 with `"An unexpected error occurred"` instead
of the HTTP 400 client-error status. -/
theorem claim_C10_nonstring_phone_500 (env : TelegramEnv) (data : PyDict) (v : JVal)
    (hn : hasKey data "name" = true)
    (hp : lookup? data "phone" = some v) (hs : jvalIsStr v = false)
    (hf : lookup? data "fees_paid" = none ∨
      ∃ b, lookup? data "fees_paid" = some (JVal.vBool b)) :
    (∃ m, validate_input data = Except.error (PyExc.attributeError m)) ∧
    (post env data).2 =
      { statusCode := 500,
        body := { status := "error", message := "An unexpected error occurred" } } := by
  have hpk : hasKey data "phone" = true := by
    rw [hasKey_eq_isSome, hp]; rfl
  have hfb : jvalIsBool (getD data "fees_paid" (JVal.vBool false)) = true := by
    rcases hf with h | ⟨b, h⟩
    · rw [getD_of_lookup_none _ h]; rfl
    · rw [getD_of_lookup_some _ h]; rfl
  have hv : validate_input data =
      Except.error (PyExc.attributeError "object has no attribute isdigit") := by
    cases hfe : getD data "fees_paid" (JVal.vBool false) <;>
      rw [hfe] at hfb <;> simp [jvalIsBool] at hfb
    cases v <;> simp [jvalIsStr] at hs <;>
      simp [validate_input, hn, hpk, hfe, getItem_of_lookup_some hp]
  exact ⟨⟨_, hv⟩, by simp [post, tryPost, hv]⟩

/-- C10 amended witness: `{name: "A", phone: 123}` (no `fees_paid`)
reaches the `isdigit` lookup and yields HTTP 500. -/
theorem claim_C10_amended_witness :
    (post envOk [("name", JVal.vStr "A"), ("phone", JVal.vInt 123)]).2 =
      { statusCode := 500,
        body := { status := "error", message := "An unexpected error occurred" } } :=
  (claim_C10_nonstring_phone_500 envOk
    [("name", JVal.vStr "A"), ("phone", JVal.vInt 123)] (JVal.vInt 123)
    rfl rfl rfl (Or.inl rfl)).2

/-- C9 counterexample: with email present but equal to the empty string
(`email: ""`), the formatted message is identical to the message for an
absent email and contains no email label at all — refuting "an email
line exactly when email is present". -/
theorem claim_C9_counterexample :
    formatMessage (JVal.vStr "Alice") (JVal.vStr "9876543210") (JVal.vBool true)
        (JVal.vStr "") JVal.vNull "ABCDEF12" =
      formatMessage (JVal.vStr "Alice") (JVal.vStr "9876543210") (JVal.vBool true)
        JVal.vNull JVal.vNull "ABCDEF12" ∧
    containsSub ("📧 *Email:*".data)
      (formatMessage (JVal.vStr "Alice") (JVal.vStr "9876543210") (JVal.vBool true)
        (JVal.vStr "") JVal.vNull "ABCDEF12").data = false :=
  ⟨rfl, by decide⟩

/-- C9 amended: the formatted body always carries the mandatory name and
phone lines, then an email line exactly when email is present and
non-empty (Python-truthy), then a course line exactly when course is
truthy, then the fees-paid line rendered `✅ Yes` for true and `❌ No`
for false, and ends with the freshly generated request identifier
appended last; on a well-formed uuid string (at least 8 characters, the
first 8 lowercase-hex) the identifier has exactly 8 characters, each a
digit or an uppercase letter. -/
theorem claim_C9_message_format (name phone fees_paid email course : JVal) (u : String)
    (hu8 : 8 ≤ u.data.length)
    (hhex : ∀ c ∈ u.data.take 8, c ∈ ("0123456789abcdef".data)) :
    formatMessage name phone fees_paid email course (generate_request_id u) =
      "🎓 *New Registration Request*\n\n" ++ "👤 *Name:* " ++ jvalStr name ++ "\n" ++
      "📞 *Phone:* " ++ jvalStr phone ++ "\n" ++
      (if jvalTruthy email then "📧 *Email:* " ++ jvalStr email ++ "\n" else "") ++
      (if jvalTruthy course then "📚 *Course:* " ++ jvalStr course ++ "\n" else "") ++
      "💰 *Fees Paid:* " ++ (if jvalTruthy fees_paid then "✅ Yes" else "❌ No") ++
      "\n\n" ++ "🆔 *Request ID:* " ++ generate_request_id u ∧
    (generate_request_id u).length = 8 ∧
    ∀ c ∈ (generate_request_id u).data, c.isDigit = true ∨ c.isUpper = true := by
  refine ⟨?_, ?_, ?_⟩
  · by_cases he : jvalTruthy email <;> by_cases hc : jvalTruthy course <;>
      (simp [formatMessage, he, hc, String.append_assoc]; try rfl)
  · show ((u.data.take 8).map Char.toUpper).length = 8
    rw [List.length_map, List.length_take]
    omega
  · intro c hc
    obtain ⟨c₀, hc₀, hmap⟩ := List.mem_map.mp hc
    have hx : c₀ ∈ ("0123456789abcdef".data) := hhex c₀ hc₀
    have hall : ∀ d ∈ ("0123456789abcdef".data),
        (Char.toUpper d).isDigit = true ∨ (Char.toUpper d).isUpper = true := by decide
    rw [← hmap]
    exact hall c₀ hx

/-- C9 amended witness: on the concrete uuid string used by `envOk` the
generated request identifier has 8 characters, and the Alice message
with a truthy email carries the email line in place. -/
theorem claim_C9_amended_witness :
    (generate_request_id "abcd1234-ef56-7890-abcd-ef1234567890").length = 8 ∧
    formatMessage (JVal.vStr "Alice") (JVal.vStr "9876543210") (JVal.vBool true)
        (JVal.vStr "a@b.c") JVal.vNull
        (generate_request_id "abcd1234-ef56-7890-abcd-ef1234567890") =
      "🎓 *New Registration Request*\n\n" ++ "👤 *Name:* " ++ "Alice" ++ "\n" ++
      "📞 *Phone:* " ++ "9876543210" ++ "\n" ++
      ("📧 *Email:* " ++ "a@b.c" ++ "\n") ++ "" ++
      "💰 *Fees Paid:* " ++ "✅ Yes" ++ "\n\n" ++ "🆔 *Request ID:* " ++
      generate_request_id "abcd1234-ef56-7890-abcd-ef1234567890" := by
  have h := claim_C9_message_format (JVal.vStr "Alice") (JVal.vStr "9876543210")
    (JVal.vBool true) (JVal.vStr "a@b.c") JVal.vNull
    "abcd1234-ef56-7890-abcd-ef1234567890" (by decide) (by decide)
  refine ⟨h.2.1, ?_⟩
  rw [h.1]
  rfl

end Notifier
